import Mathlib

/-!
Verification development for a single-file Streamlit dashboard
(`streamlit_app.py`): a YouTube "most popular videos" viewer with a
session-based login gate, a batched channel-subscriber lookup, a
Korean-locale number abbreviator, and per-row rendering.

The definitions below are shallow embeddings of the corresponding Python
functions.  Machine-level details that matter are modelled explicitly:

* Python `requests` responses: `resp.ok` is `status_code < 400`.
* Python float division `v / unit` is correctly-rounded IEEE-754 binary64
  (round to nearest, ties to even), and `f"{x:.1f}"` rounds the exact
  binary value of the double to one decimal digit, again ties-to-even.
  Both are modelled with exact natural-number arithmetic.
* Python dict / string truthiness (`if cid`, `or {}` chains) is modelled
  by explicit emptiness checks.

Everything is executable so that concrete witnesses evaluate by `decide`.
-/

set_option maxRecDepth 10000

namespace StreamlitApp

/-! ## Small executable string utilities (decimal rendering, grouping) -/

/-- The decimal digit character for `d < 10`. -/
def digitChar (d : Nat) : Char :=
  Char.ofNat (48 + d)

/-- Fuel-driven accumulation of the decimal digits of `n` (most significant
first).  Fuel-based so that it reduces inside `decide`/`rfl`; 400 digits of
fuel covers every number appearing in this development. -/
def natDigitsAux : Nat → Nat → List Char → List Char
  | 0, _, acc => acc
  | fuel + 1, n, acc =>
    if n < 10 then digitChar n :: acc
    else natDigitsAux fuel (n / 10) (digitChar (n % 10) :: acc)

/-- Decimal digit characters of `n`, most significant first. -/
def natDigits (n : Nat) : List Char :=
  natDigitsAux 400 n []

/-- Decimal rendering of a natural number (no grouping), as Python `str`. -/
def natToStr (n : Nat) : String :=
  String.mk (natDigits n)

/-- Insert a comma after every three characters, where the input list is the
reversed digit list (least significant first). -/
def groupRev : List Char → List Char
  | c1 :: c2 :: c3 :: c4 :: rest => c1 :: c2 :: c3 :: ',' :: groupRev (c4 :: rest)
  | l => l

/-- Python `f"{n:,}"` for a natural number: decimal digits grouped in threes
by commas. -/
def groupNat (n : Nat) : String :=
  String.mk ((groupRev (natDigits n).reverse).reverse)

/-- Python `f"{v:,}"` for an integer: sign, then the grouped magnitude. -/
def groupInt (v : Int) : String :=
  (if v < 0 then "-" else "") ++ groupNat v.natAbs

/-! ## Exact model of the Python float pipeline used by `format_views` -/

/-- Fuel-driven floor of the base-2 logarithm (`⌊log₂ n⌋`, with `0` for
`n ≤ 1`), fuel-based so it reduces in the kernel. -/
def log2Fuel : Nat → Nat → Nat
  | 0, _ => 0
  | fuel + 1, n => if n < 2 then 0 else log2Fuel fuel (n / 2) + 1

/-- `⌊log₂ n⌋` (0 for `n ≤ 1`). -/
def natLog2 (n : Nat) : Nat :=
  log2Fuel n n

/-- `⌊log₂ (a / b)⌋` for `1 ≤ b ≤ a`: the unique `e` with
`2 ^ e ≤ a / b < 2 ^ (e + 1)`. -/
def ratLog2 (a b : Nat) : Nat :=
  let g := natLog2 a - natLog2 b
  if b * 2 ^ g ≤ a then g else g - 1

/-- Round-half-to-even division: the integer nearest `n / d`, ties going to
the even neighbour.  This is the rounding used both by IEEE-754 binary64
conversion and by Python float formatting. -/
def rheDiv (n d : Nat) : Nat :=
  let q := n / d
  let r := n % d
  if 2 * r < d then q
  else if d < 2 * r then q + 1
  else if q % 2 = 0 then q else q + 1

/-- Model of the Python expression `f"{a/b:.1f}"` for naturals `1 ≤ b ≤ a`:

1. `a / b` is true division, producing the binary64 double nearest to the
   rational `a / b` (ties to even);
2. `:.1f` renders that double rounded to one decimal digit (ties to even
   on the exact binary value).

Returns `none` when the division overflows the double range (Python raises
`OverflowError` there: quotients at or above `2 ^ 1024`).  The pipeline is
split into the named components `fmt1M` (53-bit significand of the nearest
double, i.e. `a/b · 2^(52-e)` rounded half-even, `e = ⌊log₂ (a/b)⌋`),
`fmt1EE` (the final binary exponent) and `fmt1K` (the displayed decimal),
assembled in `fmt1`. -/
def fmt1M (a b : Nat) : Nat :=
  rheDiv (a * 2 ^ 52) (b * 2 ^ ratLog2 a b)

/-- Binary exponent of the double after significand rounding: rounding can
bump the value into the next binade. -/
def fmt1EE (a b : Nat) : Nat :=
  if 2 ^ 53 ≤ fmt1M a b then ratLog2 a b + 1 else ratLog2 a b

/-- `10 ·` the double's exact value `fmt1M · 2^(e-52)`, rounded half-even
to an integer: the displayed value is `fmt1K / 10` point `fmt1K % 10`. -/
def fmt1K (a b : Nat) : Nat :=
  rheDiv (fmt1M a b * 10 * 2 ^ ratLog2 a b) (2 ^ 52)

def fmt1 (a b : Nat) : Option String :=
  if 1023 < fmt1EE a b then none
  else some (natToStr (fmt1K a b / 10) ++ "." ++ natToStr (fmt1K a b % 10))

/-- Embedding of `format_views` (source lines 44–55) restricted to integer
input (the `int(n)` coercion succeeds).

```python
if v >= 100_000_000: return f"{v/100_000_000:.1f}억"
if v >= 10_000:      return f"{v/10_000:.1f}만"
return f"{v:,}"
```

`none` models the uncaught `OverflowError` Python raises when the float
division overflows (only possible for `v ≳ 1.8 · 10^316`). -/
def format_views (n : Int) : Option String :=
  if 100000000 ≤ n then (fmt1 n.toNat 100000000).map (fun s => s ++ "억")
  else if 10000 ≤ n then (fmt1 n.toNat 10000).map (fun s => s ++ "만")
  else some (groupInt n)

/-! ## Session / auth gate (source lines 146–181) -/

/-- The session state fields this app uses: the `authenticated` flag, the
two login text-input keys (`_login_user` / `_login_pass`, `none` when the
key is absent from `st.session_state`), and the control-bar fields. -/
structure SessionState where
  authenticated : Bool
  login_user : Option String
  login_pass : Option String
  region_sel : String
  region_custom : String
  max_count : Nat
  deriving DecidableEq

/-- The `login_btn` handler (source lines 165–171): the flag flips to `true`
exactly when both configured credentials are truthy (non-empty strings) and
both submitted values match; otherwise an inline error is shown and the
state is untouched. -/
def loginStep (expUser expPass user pw : String) (st : SessionState) : SessionState :=
  if expUser ≠ "" ∧ expPass ≠ "" ∧ user = expUser ∧ pw = expPass then
    { st with authenticated := true }
  else st

/-- The `logout` callback (source lines 152–157): clears the flag and pops
both login-field keys from the session state. -/
def logout (st : SessionState) : SessionState :=
  { st with authenticated := false, login_user := none, login_pass := none }

/-- The sidebar shows the login form exactly when not authenticated
(source line 161). -/
def showsLoginForm (st : SessionState) : Bool :=
  !st.authenticated

/-- The gated main content renders exactly when authenticated: otherwise
the script hits `st.stop()` (source lines 178–181). -/
def showsGatedContent (st : SessionState) : Bool :=
  st.authenticated

/-! ## Primary fetch: `get_most_popular_videos` (source lines 59–89)

The HTTP layer is abstracted as the final `requests` response.  `requests`
defines `resp.ok` as `status_code < 400` (so redirect statuses in the 3xx
range count as ok; with `allow_redirects` a final response can still carry
e.g. a 304).  `json = none` models `resp.json()` raising. -/

/-- Decoded JSON body of a videos-list response, keeping only the fields
the code inspects: the `error` key (payload abstracted to a string) and
the `items` array (`none` when the key is absent). -/
structure VideoBody (α : Type) where
  error : Option String
  items : Option (List α)
  deriving DecidableEq

/-- A `requests` response to the videos call: HTTP status, the decoded
body (`none` if `resp.json()` raises), and the raw text used for the
wrapped error payload. -/
structure VideoResp (α : Type) where
  status : Nat
  json : Option (VideoBody α)
  text : String
  deriving DecidableEq

/-- The `data` value interpolated into the `HTTPError` message: either the
decoded body, or — when `resp.json()` raised — the wrapper
`{"error": {"message": resp.text}}`. -/
inductive HttpPayload (α : Type) where
  | decoded (body : VideoBody α)
  | wrappedText (t : String)
  deriving DecidableEq

/-- The exceptions `get_most_popular_videos` can raise:
`requests.HTTPError` (carrying the status code in its message) on a
not-ok response, `RuntimeError` on an ok body containing an `error` key,
and the propagated decode exception when `resp.json()` raises on an ok
response. -/
inductive FetchErr (α : Type) where
  | httpError (status : Nat) (payload : HttpPayload α)
  | runtimeError (payload : String)
  | jsonDecodeError
  deriving DecidableEq

/-- The message string of the raised `requests.HTTPError`:
`f"YouTube API HTTP {resp.status_code}: {data}"` (the payload rendering is
abstracted to an opaque argument string). -/
def httpErrorMessage (status : Nat) (payloadStr : String) : String :=
  "YouTube API HTTP " ++ natToStr status ++ ": " ++ payloadStr

/-- Embedding of `get_most_popular_videos` (source lines 75–89), as a
function of the single response the one `requests.get` produces:

```python
if not resp.ok:
    try: data = resp.json()
    except Exception: data = {"error": {"message": resp.text}}
    raise requests.HTTPError(f"YouTube API HTTP {resp.status_code}: {data}")
data = resp.json()
if "error" in data: raise RuntimeError(f"YouTube API Error: {data['error']}")
return data.get("items", [])
``` -/
def get_most_popular_videos {α : Type} (resp : VideoResp α) :
    Except (FetchErr α) (List α) :=
  if resp.status < 400 then
    match resp.json with
    | none => .error .jsonDecodeError
    | some body =>
      match body.error with
      | some e => .error (.runtimeError e)
      | none => .ok (body.items.getD [])
  else
    .error (.httpError resp.status
      (match resp.json with
       | some body => .decoded body
       | none => .wrappedText resp.text))

/-! ## Subscriber batcher: `get_channel_subscribers` (source lines 93–135)

The HTTP layer is abstracted as an oracle from the requested ID batch to
the outcome of `requests.get` (either a raised exception or the final
response).  We record, besides the returned map, the list of issued batch
requests and the number of `st.warning` calls. -/

/-- One channel record of a channels-list response: the `id` key and the
`statistics.subscriberCount` value.  The inner `Option Int` is the outcome
of `int(subs)`: `some k` when the coercion yields `k`, `none` when it
raises (malformed count, silently skipped). -/
structure ChanItem where
  id : Option String
  subscriberCount : Option (Option Int)
  deriving DecidableEq

/-- Decoded JSON body of a channels-list response (`items` key only). -/
structure ChanBody where
  items : Option (List ChanItem)
  deriving DecidableEq

/-- A `requests` response to a channels call (`json = none` models
`resp.json()` raising). -/
structure ChanResp where
  status : Nat
  json : Option ChanBody
  text : String
  deriving DecidableEq

/-- Outcome of one batch HTTP call: `requests.get` raising, or a response. -/
inductive BatchOutcome where
  | exn (msg : String)
  | resp (r : ChanResp)
  deriving DecidableEq

/-- The accumulated result map, modelling a Python dict as an insertion
ordered association list with unique keys. -/
abbrev SubsMap := List (String × Int)

/-- `result[cid] = v` on a Python dict: overwrite in place when the key
exists, append otherwise. -/
def dictInsert (m : SubsMap) (k : String) (v : Int) : SubsMap :=
  if m.any (fun p => p.1 = k) then
    m.map (fun p => if p.1 = k then (k, v) else p)
  else m ++ [(k, v)]

/-- The per-item extraction loop (source lines 123–131): insert when the
`id` is truthy and a `subscriberCount` is present and `int(...)` succeeds.

```python
for ch in data.get("items", []):
    cid = ch.get("id"); subs = (ch or {}).get("statistics", {}).get("subscriberCount")
    if cid and subs is not None:
        try: result[cid] = int(subs)
        except Exception: pass
``` -/
def applyItems (m : SubsMap) (items : List ChanItem) : SubsMap :=
  items.foldl
    (fun acc ch =>
      match ch.id, ch.subscriberCount with
      | some cid, some sv =>
        if cid ≠ "" then
          match sv with
          | some k => dictInsert acc cid k
          | none => acc
        else acc
      | _, _ => acc)
    m

/-- Effect of one batch outcome on the accumulated map (source lines
112–134): a raised call, a not-ok (status ≥ 400) response, or an ok
response whose body fails to decode all leave the map untouched (warn and
continue); an ok decoded body contributes its items. -/
def applyBatch (o : BatchOutcome) (m : SubsMap) : SubsMap :=
  match o with
  | .exn _ => m
  | .resp r =>
    if r.status < 400 then
      match r.json with
      | none => m
      | some body => applyItems m (body.items.getD [])
    else m

/-- Whether one batch outcome triggers an `st.warning` call: a raised
call, a not-ok response, or an ok response whose `resp.json()` raises. -/
def warnsOf (o : BatchOutcome) : Bool :=
  match o with
  | .exn _ => true
  | .resp r => if r.status < 400 then r.json.isNone else true

/-- A batch "fails" in the sense of the per-chunk failure policy when the
HTTP call itself raises or the response status is not ok (≥ 400). -/
def batchFails (o : BatchOutcome) : Bool :=
  match o with
  | .exn _ => true
  | .resp r => !decide (r.status < 400)

/-- What one run of `get_channel_subscribers` produced: the returned map,
the batches handed to `requests.get` in order, and how many warnings were
logged. -/
structure BatchRun where
  result : SubsMap
  calls : List (List String)
  warns : Nat
  deriving DecidableEq

/-- First-occurrence deduplication, with an accumulator of already-seen
elements. -/
def dedupFirstAux (seen : List String) : List String → List String
  | [] => []
  | x :: xs =>
    if x ∈ seen then dedupFirstAux seen xs
    else x :: dedupFirstAux (x :: seen) xs

/-- Model of `list({cid for cid in channel_ids if cid})`: drop falsy
entries and deduplicate.  (CPython iterates the set in an unspecified
order; the model fixes first-occurrence order.  `None` entries coming from
`snippet.get("channelId")` behave exactly like `""`: falsy, dropped.) -/
def uniqueIds (channel_ids : List String) : List String :=
  dedupFirstAux [] (channel_ids.filter (fun cid => cid ≠ ""))

/-- Fuel-driven slicing into consecutive chunks (fuel ≥ length suffices,
each step consumes at least one element). -/
def chunksFuel : Nat → List String → List (List String)
  | 0, _ => []
  | fuel + 1, l =>
    match l with
    | [] => []
    | _ :: _ => l.take 50 :: chunksFuel fuel (l.drop 50)

/-- Model of the slicing loop `for i in range(0, len(unique_ids), 50):
batch = unique_ids[i : i + 50]`. -/
def chunks50 (l : List String) : List (List String) :=
  chunksFuel l.length l

/-- The per-chunk loop from an arbitrary accumulated state, threading the
result map, the issued calls and the warning count. -/
def runBatchesFrom (http : List String → BatchOutcome) (acc : BatchRun) :
    List (List String) → BatchRun
  | [] => acc
  | b :: bs =>
    runBatchesFrom http
      { result := applyBatch (http b) acc.result
        calls := acc.calls ++ [b]
        warns := acc.warns + (if warnsOf (http b) then 1 else 0) }
      bs

/-- The per-chunk loop (source lines 105–134). -/
def runBatches (http : List String → BatchOutcome) (bs : List (List String)) :
    BatchRun :=
  runBatchesFrom http { result := [], calls := [], warns := 0 } bs

/-- The map a list of batches folds to, ignoring calls and warnings. -/
def foldBatches (http : List String → BatchOutcome) (bs : List (List String)) :
    SubsMap :=
  bs.foldl (fun m b => applyBatch (http b) m) []

/-- Embedding of `get_channel_subscribers` (source lines 93–135),
parameterised by the HTTP oracle `http` giving the outcome of
`requests.get` for each requested batch of IDs.  The body never raises:
every per-batch exception is caught, warned about and skipped. -/
def get_channel_subscribers (http : List String → BatchOutcome)
    (channel_ids : List String) : BatchRun :=
  if channel_ids = [] then { result := [], calls := [], warns := 0 }
  else runBatches http (chunks50 (uniqueIds channel_ids))

/-! ## Row rendering (source lines 265–316) -/

/-- One thumbnail-size entry, i.e. one JSON object under
`snippet.thumbnails`: the value of its `url` key (if present) plus whether
the object carries any other keys (`width`, `height`, …) — the latter
matters for Python dict truthiness in the `or` chain. -/
structure ThumbDict where
  url : Option String
  hasOtherKeys : Bool
  deriving DecidableEq

/-- Python truthiness of a thumbnail-entry dict: non-empty. -/
def dictTruthy (t : ThumbDict) : Bool :=
  t.url.isSome || t.hasOtherKeys

/-- The four size slots the code reads from `snippet.thumbnails`
(`none` models an absent key). -/
structure Thumbnails where
  medium : Option ThumbDict
  high : Option ThumbDict
  standard : Option ThumbDict
  defaultSize : Option ThumbDict
  deriving DecidableEq

/-- Python `a or b` where `a` is `thumbs.get(size)` (`None` or a dict) and
`b` is the rest of the chain: keep `a` when it is a truthy (non-empty)
dict. -/
def pyOrD (a : Option ThumbDict) (b : ThumbDict) : ThumbDict :=
  match a with
  | some t => if dictTruthy t then t else b
  | none => b

/-- What the thumbnail column shows. -/
inductive ThumbRender where
  | image (url : String)
  | placeholder
  deriving DecidableEq

/-- Rendering of a chosen dict: `st.image(thumb_url)` when
`thumb.get("url")` is truthy (present and non-empty), else the
`"(썸네일 없음)"` placeholder (source lines 280, 293–296). -/
def renderDict (d : ThumbDict) : ThumbRender :=
  match d.url with
  | some u => if u ≠ "" then .image u else .placeholder
  | none => .placeholder

/-- Embedding of the thumbnail selection (source lines 273–279):

```python
thumb = thumbs.get("medium") or thumbs.get("high")
        or thumbs.get("standard") or thumbs.get("default") or {}
```

followed by the url check above. -/
def renderThumb (t : Thumbnails) : ThumbRender :=
  renderDict
    (pyOrD t.medium
      (pyOrD t.high
        (pyOrD t.standard
          (pyOrD t.defaultSize { url := none, hasOtherKeys := false }))))

/-- The usable URL a size slot offers, if any: the slot is present and its
`url` value is truthy. -/
def slotUrl : Option ThumbDict → Option String
  | some d =>
    match d.url with
    | some u => if u ≠ "" then some u else none
    | none => none
  | none => none

/-- Modelled from the spec: "thumbnail (first available of
medium/high/standard/default sizes, else a placeholder notice)", reading
"available" as carrying a usable (truthy) URL.  This is the spec-side
definition used only to compare against `renderThumb`. -/
def specFirstAvailableThumb (t : Thumbnails) : ThumbRender :=
  match slotUrl t.medium <|> slotUrl t.high <|> slotUrl t.standard <|>
      slotUrl t.defaultSize with
  | some u => .image u
  | none => .placeholder

/-- A slot is benign for the first-available reading when, if present and
truthy as a dict, it carries a usable URL. -/
def slotOk : Option ThumbDict → Bool
  | none => true
  | some d => !dictTruthy d || (match d.url with
      | some u => u ≠ ""
      | none => false)

/-- The statistics fields of one video item that the metrics line reads.
The integer is the numeric value of the count (YouTube serves counts as
decimal strings); `none` models an absent key. -/
structure RowStats where
  viewCount : Option Int
  likeCount : Option Int
  commentCount : Option Int
  deriving DecidableEq

/-- Formatting of an optional metric: absent values produce no part at
all, present values are formatted.  (The outer `Option` propagates the
only failure `format_views` can raise.) -/
def optFmt (x : Option Int) : Option (Option String) :=
  match x with
  | none => some none
  | some v => (format_views v).map some

/-- Embedding of the metrics-line construction (source lines 282–312):

```python
views = stats.get("viewCount", "0")
likes = stats.get("likeCount"); comments = stats.get("commentCount")
subs = subs_map.get(channel_id)
parts = [f"{channel}", f"👁 {format_views(views)}"]
if likes is not None: parts.append(f"👍 {format_views(likes)}")
if comments is not None: parts.append(f"💬 {format_views(comments)}")
if subs is not None: parts.append(f"👤 {format_views(subs)}명")
```

(A missing `viewCount` defaults to the string `"0"`, whose `int` coercion
is `0`.) -/
def metricsParts (channel : String) (stats : RowStats) (subs : Option Int) :
    Option (List String) :=
  (format_views (stats.viewCount.getD 0)).bind (fun vs =>
    (optFmt stats.likeCount).bind (fun likeS =>
      (optFmt stats.commentCount).bind (fun comS =>
        (optFmt subs).map (fun subS =>
          [channel, "👁 " ++ vs]
          ++ (match likeS with
              | some s => ["👍 " ++ s]
              | none => [])
          ++ (match comS with
              | some s => ["💬 " ++ s]
              | none => [])
          ++ (match subS with
              | some s => ["👤 " ++ s ++ "명"]
              | none => [])))))

/-- The rendered compact line: the parts joined by `" · "`. -/
def metricsLine (channel : String) (stats : RowStats) (subs : Option Int) :
    Option String :=
  (metricsParts channel stats subs).map (String.intercalate " · ")

/-! ## Concrete scenarios used as witnesses and counterexamples -/

/-- 120 distinct, truthy channel IDs: `"0"`, …, `"119"`. -/
def wIds120 : List String :=
  (List.range 120).map natToStr

/-- The first batch the slicing loop issues for `wIds120`. -/
def wChunkA : List String :=
  wIds120.take 50

/-- The second batch for `wIds120`. -/
def wChunkB : List String :=
  (wIds120.drop 50).take 50

/-- The third batch for `wIds120`. -/
def wChunkC : List String :=
  wIds120.drop 100

/-- A response body answering every requested ID with subscriber count
`k`. -/
def wRespBody (b : List String) (k : Int) : ChanBody :=
  { items := some (b.map (fun c => { id := some c, subscriberCount := some (some k) })) }

/-- An oracle where the middle batch (the one starting at ID `"50"`)
raises and every other batch answers 200 with one subscriber per
requested ID. -/
def wHttpMidFail : List String → BatchOutcome := fun b =>
  if b.head? = some (natToStr 50) then .exn "boom"
  else .resp { status := 200, json := some (wRespBody b 1), text := "" }

/-- An oracle answering every batch with a 304 (non-2xx but ok for
`requests`) response that carries a decodable body with one item. -/
def http304items : List String → BatchOutcome := fun _ =>
  .resp { status := 304, json := some (wRespBody ["a"] 7), text := "" }

/-! ## Supporting lemmas -/

theorem log2Fuel_le (fuel : Nat) :
    ∀ n k, n ≤ fuel → n < 2 ^ (k + 1) → log2Fuel fuel n ≤ k := by
  induction fuel with
  | zero => intro n k _ _; simp [log2Fuel]
  | succ fuel ih =>
    intro n k hfuel hk
    rw [log2Fuel]
    by_cases h2 : n < 2
    · simp [h2]
    · rw [if_neg h2]
      cases k with
      | zero => omega
      | succ k =>
        have hdiv : n / 2 < 2 ^ (k + 1) := by
          have : 2 ^ (k + 1 + 1) = 2 ^ (k + 1) * 2 := by ring
          rw [this] at hk
          exact Nat.div_lt_of_lt_mul (by omega)
        have := ih (n / 2) k (by omega) hdiv
        omega

theorem natLog2_le {n k : Nat} (h : n < 2 ^ (k + 1)) : natLog2 n ≤ k :=
  log2Fuel_le n n k (Nat.le_refl n) h

theorem ratLog2_le (a b : Nat) : ratLog2 a b ≤ natLog2 a := by
  rw [ratLog2]
  split
  · exact Nat.sub_le _ _
  · exact Nat.le_trans (Nat.sub_le _ 1) (Nat.sub_le _ _)

theorem fmt1_shape (a b : Nat) (ha : a < 2 ^ 1023) :
    ∃ k, fmt1 a b = some (natToStr (k / 10) ++ "." ++ natToStr (k % 10)) := by
  refine ⟨fmt1K a b, ?_⟩
  have hlog : natLog2 a ≤ 1022 := natLog2_le ha
  have he : ratLog2 a b ≤ 1022 := Nat.le_trans (ratLog2_le a b) hlog
  have hee : ¬ 1023 < fmt1EE a b := by
    rw [fmt1EE]; split <;> omega
  rw [fmt1, if_neg hee]

/-- Chunks cover the list exactly (fuelled version). -/
theorem chunksFuel_join (fuel : Nat) :
    ∀ l : List String, l.length ≤ fuel → (chunksFuel fuel l).flatten = l := by
  induction fuel with
  | zero =>
    intro l hl
    have : l = [] := List.length_eq_zero.mp (Nat.le_zero.mp hl)
    simp [this, chunksFuel]
  | succ fuel ih =>
    intro l hl
    match l with
    | [] => simp [chunksFuel]
    | x :: xs =>
      rw [chunksFuel]
      simp only [List.flatten_cons]
      rw [ih ((x :: xs).drop 50) (by simp at hl ⊢; omega)]
      exact List.take_append_drop 50 (x :: xs)

/-- Every chunk carries at most 50 elements (fuelled version). -/
theorem chunksFuel_mem_le (fuel : Nat) :
    ∀ l b, b ∈ chunksFuel fuel l → b.length ≤ 50 := by
  induction fuel with
  | zero => intro l b hb; simp [chunksFuel] at hb
  | succ fuel ih =>
    intro l b hb
    match l with
    | [] => simp [chunksFuel] at hb
    | x :: xs =>
      rw [chunksFuel] at hb
      rcases List.mem_cons.mp hb with h | h
      · subst h
        simpa using List.length_take_le 50 (x :: xs)
      · exact ih _ b h

/-- The number of chunks is `⌈length / 50⌉` (fuelled version). -/
theorem chunksFuel_length (fuel : Nat) :
    ∀ l : List String, l.length ≤ fuel →
      (chunksFuel fuel l).length = (l.length + 49) / 50 := by
  induction fuel with
  | zero =>
    intro l hl
    have : l = [] := List.length_eq_zero.mp (Nat.le_zero.mp hl)
    simp [this, chunksFuel]
  | succ fuel ih =>
    intro l hl
    match l with
    | [] => simp [chunksFuel]
    | x :: xs =>
      rw [chunksFuel]
      simp only [List.length_cons]
      rw [ih ((x :: xs).drop 50) (by simp at hl ⊢; omega)]
      simp only [List.length_drop, List.length_cons]
      omega

theorem chunks50_join (l : List String) : (chunks50 l).flatten = l :=
  chunksFuel_join l.length l (Nat.le_refl _)

theorem chunks50_mem_le (l : List String) (b : List String)
    (hb : b ∈ chunks50 l) : b.length ≤ 50 :=
  chunksFuel_mem_le l.length l b hb

theorem chunks50_length (l : List String) :
    (chunks50 l).length = (l.length + 49) / 50 :=
  chunksFuel_length l.length l (Nat.le_refl _)

theorem dedupFirstAux_eq_self :
    ∀ (l : List String) (seen : List String), l.Nodup →
      (∀ x ∈ l, x ∉ seen) → dedupFirstAux seen l = l := by
  intro l
  induction l with
  | nil => intro seen _ _; rfl
  | cons x xs ih =>
    intro seen hnd hseen
    rw [dedupFirstAux, if_neg (hseen x (List.mem_cons_self x xs))]
    congr 1
    apply ih (x :: seen) (List.Nodup.of_cons hnd)
    intro y hy
    rw [List.mem_cons]
    push_neg
    refine ⟨?_, hseen y (List.mem_cons_of_mem x hy)⟩
    intro he
    rw [he] at hy
    exact (List.nodup_cons.mp hnd).1 hy

theorem uniqueIds_eq_self (ids : List String) (hnd : ids.Nodup)
    (hne : "" ∉ ids) : uniqueIds ids = ids := by
  rw [uniqueIds]
  have hfilter : ids.filter (fun cid => cid ≠ "") = ids := by
    apply List.filter_eq_self.mpr
    intro a ha
    simp only [ne_eq, decide_not, Bool.not_eq_true', decide_eq_false_iff_not]
    intro he
    rw [he] at ha
    exact hne ha
  rw [hfilter]
  exact dedupFirstAux_eq_self ids [] hnd (by simp)

/-- `dictInsert` never changes the key set in the overwrite branch and
appends a fresh key otherwise, so it preserves key distinctness. -/
theorem dictInsert_keys_nodup (m : SubsMap) (k : String) (v : Int)
    (h : (m.map Prod.fst).Nodup) : ((dictInsert m k v).map Prod.fst).Nodup := by
  rw [dictInsert]
  split
  · rw [List.map_map]
    have hfun : (Prod.fst ∘ fun p : String × Int =>
        if p.1 = k then (k, v) else p) = Prod.fst := by
      funext p
      by_cases hp : p.1 = k <;> simp [hp]
    rw [hfun]
    exact h
  · rename_i hnot
    rw [List.map_append]
    have hk : k ∉ m.map Prod.fst := by
      intro hmem
      rcases List.mem_map.mp hmem with ⟨p, hp, hfst⟩
      exact hnot (List.any_eq_true.mpr ⟨p, hp, by simp [hfst]⟩)
    simp [List.nodup_append, h, hk]

theorem applyItems_keys_nodup :
    ∀ (items : List ChanItem) (m : SubsMap), (m.map Prod.fst).Nodup →
      ((applyItems m items).map Prod.fst).Nodup := by
  intro items
  induction items with
  | nil => intro m h; exact h
  | cons ch rest ih =>
    intro m h
    rw [applyItems, List.foldl_cons]
    apply ih
    rcases hid : ch.id with _ | cid <;> rcases hs : ch.subscriberCount with _ | sv
    · simpa [hid, hs] using h
    · simpa [hid, hs] using h
    · simpa [hid, hs] using h
    · by_cases hne : cid ≠ ""
      · rcases sv with _ | kk
        · simpa [hid, hs, hne] using h
        · simpa [hid, hs, hne] using dictInsert_keys_nodup m cid kk h
      · simpa [hid, hs, hne] using h

theorem applyBatch_keys_nodup (o : BatchOutcome) (m : SubsMap)
    (h : (m.map Prod.fst).Nodup) : ((applyBatch o m).map Prod.fst).Nodup := by
  rcases o with msg | r
  · exact h
  · rw [applyBatch]
    split
    · rcases hj : r.json with _ | body
      · simpa [hj] using h
      · simpa [hj] using applyItems_keys_nodup _ m h
    · exact h

/-- A failed batch (raised call or status ≥ 400) contributes nothing. -/
theorem applyBatch_fails (o : BatchOutcome) (m : SubsMap)
    (h : batchFails o = true) : applyBatch o m = m := by
  rcases o with msg | r
  · rfl
  · rw [batchFails] at h
    rw [applyBatch, if_neg]
    simpa using h

/-- A failed batch always logs a warning. -/
theorem batchFails_warns (o : BatchOutcome) (h : batchFails o = true) :
    warnsOf o = true := by
  rcases o with msg | r
  · rfl
  · rw [batchFails] at h
    rw [warnsOf, if_neg (by simpa using h)]

/-- Closed form of the per-chunk loop from any accumulator. -/
theorem runBatchesFrom_spec (http : List String → BatchOutcome) :
    ∀ (bs : List (List String)) (acc : BatchRun),
      runBatchesFrom http acc bs =
        { result := bs.foldl (fun m b => applyBatch (http b) m) acc.result
          calls := acc.calls ++ bs
          warns := acc.warns + bs.countP (fun b => warnsOf (http b)) } := by
  intro bs
  induction bs with
  | nil => intro acc; simp [runBatchesFrom]
  | cons b rest ih =>
    intro acc
    rw [runBatchesFrom, ih]
    simp only [List.foldl_cons, List.countP_cons, BatchRun.mk.injEq]
    refine ⟨by trivial, by simp, ?_⟩
    by_cases hw : warnsOf (http b) <;> simp [hw] <;> omega

theorem runBatches_spec (http : List String → BatchOutcome)
    (bs : List (List String)) :
    runBatches http bs =
      { result := foldBatches http bs
        calls := bs
        warns := bs.countP (fun b => warnsOf (http b)) } := by
  rw [runBatches, runBatchesFrom_spec, foldBatches]
  simp

/-- Accumulating batches never breaks key distinctness of the map. -/
theorem foldl_applyBatch_keys_nodup (http : List String → BatchOutcome) :
    ∀ (bs : List (List String)) (m : SubsMap), (m.map Prod.fst).Nodup →
      ((bs.foldl (fun m b => applyBatch (http b) m) m).map Prod.fst).Nodup := by
  intro bs
  induction bs with
  | nil => intro m h; exact h
  | cons b rest ih =>
    intro m h
    rw [List.foldl_cons]
    exact ih _ (applyBatch_keys_nodup _ m h)

theorem foldBatches_keys_nodup (http : List String → BatchOutcome)
    (bs : List (List String)) :
    ((foldBatches http bs).map Prod.fst).Nodup :=
  foldl_applyBatch_keys_nodup http bs [] (by simp)

/-- One step of the `or` chain, for slots that cannot mask: a benign slot
either supplies its usable URL or falls through to the rest of the
chain. -/
theorem renderDict_pyOrD (a : Option ThumbDict) (b : ThumbDict)
    (h : slotOk a = true) :
    renderDict (pyOrD a b) =
      (match slotUrl a with
       | some u => ThumbRender.image u
       | none => renderDict b) := by
  rcases a with _ | d
  · rfl
  · by_cases ht : dictTruthy d = true
    · rw [slotOk, ht] at h
      simp only [Bool.not_true, Bool.false_or] at h
      rcases hu : d.url with _ | u
      · rw [hu] at h; exact absurd h (by simp)
      · rw [hu] at h
        have hne : u ≠ "" := by simpa using h
        simp [pyOrD, ht, slotUrl, renderDict, hu, hne]
    · have hnone : d.url = none := by
        rcases hu : d.url with _ | u
        · rfl
        · exact absurd (by simp [dictTruthy, hu]) ht
      simp [pyOrD, ht, slotUrl, hnone]

/-! ## Claim theorems -/

/-- C1: starting from a logged-out state, the login handler authenticates
exactly when both configured credentials are non-empty and both submitted
values match them; with an empty configured credential the flag never
becomes true, and on any mismatch the session state is left unchanged. -/
theorem login_transition_spec (expUser expPass user pw : String)
    (st : SessionState) (hout : st.authenticated = false) :
    ((loginStep expUser expPass user pw st).authenticated = true ↔
      (expUser ≠ "" ∧ expPass ≠ "" ∧ user = expUser ∧ pw = expPass))
    ∧ ((expUser = "" ∨ expPass = "") →
        (loginStep expUser expPass user pw st).authenticated = false)
    ∧ (¬(expUser ≠ "" ∧ expPass ≠ "" ∧ user = expUser ∧ pw = expPass) →
        loginStep expUser expPass user pw st = st) := by
  by_cases hc : expUser ≠ "" ∧ expPass ≠ "" ∧ user = expUser ∧ pw = expPass
  · refine ⟨by simp [loginStep, if_pos hc, hc], ?_, fun hn => absurd hc hn⟩
    rintro (he | he)
    · exact absurd he hc.1
    · exact absurd he hc.2.1
  · rw [loginStep, if_neg hc]
    exact ⟨by simp [hout, hc], fun _ => hout, fun _ => rfl⟩

/-- C1 witness: with configured credentials `"admin"`/`"pw"` and matching
submitted values, the flag flips to true from a logged-out state. -/
theorem login_transition_spec_witness :
    (loginStep "admin" "pw" "admin" "pw"
      { authenticated := false, login_user := some "admin",
        login_pass := some "pw", region_sel := "KR", region_custom := "KR",
        max_count := 20 }).authenticated = true :=
  (login_transition_spec "admin" "pw" "admin" "pw"
    { authenticated := false, login_user := some "admin",
      login_pass := some "pw", region_sel := "KR", region_custom := "KR",
      max_count := 20 } rfl).1.mpr (by decide)

/-- C4: whenever dropping falsy entries leaves no channel IDs (in
particular for the empty input list), `get_channel_subscribers` returns
the empty map, issues no HTTP call and logs no warning. -/
theorem batcher_empty_input_spec (http : List String → BatchOutcome)
    (channel_ids : List String)
    (h : channel_ids.filter (fun cid => cid ≠ "") = []) :
    get_channel_subscribers http channel_ids =
      { result := [], calls := [], warns := 0 } := by
  rw [get_channel_subscribers]
  split
  · rfl
  · rw [uniqueIds, h]
    rfl

/-- C4 witness: a list of two falsy entries filters to nothing and the
batcher returns the empty run. -/
theorem batcher_empty_input_spec_witness :
    (["", ""] : List String).filter (fun cid => cid ≠ "") = [] ∧
      get_channel_subscribers (fun _ => BatchOutcome.exn "unused") ["", ""] =
        { result := [], calls := [], warns := 0 } :=
  ⟨by decide,
    batcher_empty_input_spec (fun _ => BatchOutcome.exn "unused") ["", ""]
      (by decide)⟩

/-- C6: any 2xx response whose decoded body has no `error` key yields the
raw `items` array, and the empty list when the `items` key is absent —
never an error. -/
theorem primary_fetch_items_spec {α : Type} (resp : VideoResp α)
    (body : VideoBody α) (h2 : 200 ≤ resp.status) (h3 : resp.status < 300)
    (hj : resp.json = some body) (he : body.error = none) :
    get_most_popular_videos resp = .ok (body.items.getD [])
    ∧ (body.items = none → get_most_popular_videos resp = .ok []) := by
  have hok : resp.status < 400 := by omega
  rw [get_most_popular_videos, if_pos hok, hj]
  simp only [he]
  exact ⟨trivial, fun hi => by rw [hi]; rfl⟩

/-- C6 witness: a 200 response with no `error` key and `items` omitted
returns the empty list. -/
theorem primary_fetch_items_spec_witness :
    get_most_popular_videos (α := Nat)
        { status := 200, json := some { error := none, items := none }, text := "" } =
      .ok [] :=
  (primary_fetch_items_spec
    { status := 200, json := some { error := none, items := none }, text := "" }
    { error := none, items := none } (by decide) (by decide) rfl rfl).2 rfl

/-- C8: logout clears the authenticated flag and removes both stored
login-field values, leaves the control-bar fields untouched, and a
subsequent render shows the login form while skipping all gated
content. -/
theorem logout_spec (st : SessionState) :
    (logout st).authenticated = false
    ∧ (logout st).login_user = none
    ∧ (logout st).login_pass = none
    ∧ (logout st).region_sel = st.region_sel
    ∧ (logout st).region_custom = st.region_custom
    ∧ (logout st).max_count = st.max_count
    ∧ showsLoginForm (logout st) = true
    ∧ showsGatedContent (logout st) = false := by
  simp [logout, showsLoginForm, showsGatedContent]

/-- C9 counterexample: a `medium` entry that is a non-empty dict without a
usable URL (e.g. only `width`/`height` keys) masks a `high` entry that
does carry a URL — the code shows the placeholder, while first-available
selection would show the `high` image.  This refutes the claim's "the
first-available selection still holds" for present-but-URL-less
entries. -/
theorem thumbnail_masking_counterexample :
    renderThumb
        { medium := some { url := none, hasOtherKeys := true },
          high := some { url := some "u", hasOtherKeys := false },
          standard := none, defaultSize := none } = .placeholder
    ∧ specFirstAvailableThumb
        { medium := some { url := none, hasOtherKeys := true },
          high := some { url := some "u", hasOtherKeys := false },
          standard := none, defaultSize := none } = .image "u" := by
  constructor <;> rfl

/-- C9 amended: the code picks the first non-empty size entry in the order
medium/high/standard/default; provided every non-empty entry carries a
usable (non-empty) URL, this agrees with the spec's first-available-URL
selection (and a placeholder is shown when no usable URL exists). -/
theorem thumbnail_first_available_amended (t : Thumbnails)
    (hm : slotOk t.medium = true) (hh : slotOk t.high = true)
    (hs : slotOk t.standard = true) (hd : slotOk t.defaultSize = true) :
    renderThumb t = specFirstAvailableThumb t := by
  rw [renderThumb, renderDict_pyOrD _ _ hm]
  rw [specFirstAvailableThumb]
  cases hum : slotUrl t.medium with
  | some u => simp [hum, Option.orElse]
  | none =>
    rw [renderDict_pyOrD _ _ hh]
    cases huh : slotUrl t.high with
    | some u => simp [hum, huh, Option.orElse]
    | none =>
      rw [renderDict_pyOrD _ _ hs]
      cases hus : slotUrl t.standard with
      | some u => simp [hum, huh, hus, Option.orElse]
      | none =>
        rw [renderDict_pyOrD _ _ hd]
        cases hud : slotUrl t.defaultSize with
        | some u => simp [hum, huh, hus, hud, Option.orElse]
        | none => simp [hum, huh, hus, hud, Option.orElse, renderDict]

/-- C9 witness: with a missing `medium` and a URL-carrying `high`, the
rendered thumbnail is the `high` URL and agrees with the first-available
selection. -/
theorem thumbnail_first_available_amended_witness :
    renderThumb
        { medium := none, high := some { url := some "u", hasOtherKeys := true },
          standard := none, defaultSize := some { url := none, hasOtherKeys := false } } =
      specFirstAvailableThumb
        { medium := none, high := some { url := some "u", hasOtherKeys := true },
          standard := none, defaultSize := some { url := none, hasOtherKeys := false } }
    ∧ renderThumb
        { medium := none, high := some { url := some "u", hasOtherKeys := true },
          standard := none, defaultSize := some { url := none, hasOtherKeys := false } } =
      .image "u" :=
  ⟨thumbnail_first_available_amended _ (by decide) (by decide) (by decide)
      (by decide),
    by decide⟩

/-- C5 counterexample: a 304 response (non-2xx, but `requests.ok` since
`ok` is `status < 400`) with a clean decodable body raises nothing: the
fetch returns the items instead of an HTTP error, refuting "a non-2xx
HTTP status raises an HTTP-level error". -/
theorem primary_fetch_non2xx_ok_counterexample :
    ¬(200 ≤ 304 ∧ 304 < 300)
    ∧ get_most_popular_videos (α := Nat)
        { status := 304, json := some { error := none, items := some [] }, text := "" } =
      .ok [] :=
  ⟨by decide, rfl⟩

/-- C5 amended: a response with status ≥ 400 (`requests`' not-ok; statuses
in 300–399 are processed as success) raises an `HTTPError` that carries the
status code — its message interpolates the status — and the decoded or
raw-text-wrapped error body; a below-400 response whose decoded body has an
`error` key raises a `RuntimeError` with that payload.  Both propagate, and
there is no retry (the function issues exactly one request). -/
theorem primary_fetch_error_amended {α : Type} (resp : VideoResp α) :
    (400 ≤ resp.status →
      get_most_popular_videos resp =
        .error (.httpError resp.status
          (match resp.json with
           | some body => .decoded body
           | none => .wrappedText resp.text))
      ∧ ∀ payloadStr : String, ∃ pre post,
          httpErrorMessage resp.status payloadStr =
            pre ++ natToStr resp.status ++ post)
    ∧ (resp.status < 400 → ∀ (body : VideoBody α) (e : String),
        resp.json = some body → body.error = some e →
        get_most_popular_videos resp = .error (.runtimeError e)) := by
  constructor
  · intro h400
    constructor
    · rw [get_most_popular_videos, if_neg (by omega)]
    · intro payloadStr
      refine ⟨"YouTube API HTTP ", ": " ++ payloadStr, ?_⟩
      rw [httpErrorMessage]
      simp [String.append_assoc]
  · intro hlt body e hj he
    rw [get_most_popular_videos, if_pos hlt, hj]
    simp [he]

/-- C5 witness: a 403 response with a decoded error body raises the HTTP
error carrying 403, and the message template interpolates `403`. -/
theorem primary_fetch_error_amended_witness :
    400 ≤ 403
    ∧ get_most_popular_videos (α := Nat)
        { status := 403, json := some { error := some "forbidden", items := none },
          text := "" } =
      .error (.httpError 403 (.decoded { error := some "forbidden", items := none }))
    ∧ ∃ pre post, httpErrorMessage 403 "payload" = pre ++ natToStr 403 ++ post := by
  have h := (primary_fetch_error_amended (α := Nat)
    { status := 403, json := some { error := some "forbidden", items := none },
      text := "" }).1 (by decide)
  exact ⟨by decide, h.1, h.2 "payload"⟩

/-- C2 counterexample: with a single chunk answered by a 304 — a non-2xx
status — the code logs no warning and inserts the chunk's entries into the
map, refuting the claim's "returns non-2xx ⟹ a warning is logged and the
chunk is skipped". -/
theorem batcher_non2xx_processed_counterexample :
    get_channel_subscribers http304items ["a"] =
      { result := [("a", 7)], calls := [["a"]], warns := 0 }
    ∧ ¬(200 ≤ 304 ∧ 304 < 300) :=
  ⟨by decide, by decide⟩

/-- C2 amended: the batcher is best-effort per chunk for the failures the
code recognises — the HTTP call raising, or a status ≥ 400 (`requests`'
not-ok; a non-2xx status below 400 such as 304 is processed as success):
such a chunk logs a warning and contributes nothing, and the returned map
equals the fold over all remaining chunks, so entries from earlier and
later chunks are preserved.  The whole operation is total: every per-batch
exception is caught, so it never raises. -/
theorem batcher_best_effort_amended (http : List String → BatchOutcome)
    (channel_ids : List String) (pre post : List (List String))
    (b : List String)
    (hdec : (get_channel_subscribers http channel_ids).calls = pre ++ b :: post)
    (hfail : batchFails (http b) = true) :
    (get_channel_subscribers http channel_ids).result =
      foldBatches http (pre ++ post)
    ∧ 1 ≤ (get_channel_subscribers http channel_ids).warns := by
  by_cases hids : channel_ids = []
  · rw [get_channel_subscribers, if_pos hids] at hdec
    exact absurd hdec.symm (by simp)
  · rw [get_channel_subscribers, if_neg hids, runBatches_spec] at hdec ⊢
    simp only at hdec ⊢
    rw [hdec]
    constructor
    · rw [foldBatches, foldBatches, List.foldl_append, List.foldl_append,
        List.foldl_cons, applyBatch_fails _ _ hfail]
    · rw [List.countP_append, List.countP_cons, batchFails_warns _ hfail]
      simp only [if_pos]
      omega

/-- C2 witness: for 120 IDs split into three batches where the middle one
raises, the returned map is the fold over batches one and three, and a
warning was logged. -/
theorem batcher_best_effort_amended_witness :
    (get_channel_subscribers wHttpMidFail wIds120).calls =
      [wChunkA] ++ wChunkB :: [wChunkC]
    ∧ batchFails (wHttpMidFail wChunkB) = true
    ∧ (get_channel_subscribers wHttpMidFail wIds120).result =
      foldBatches wHttpMidFail ([wChunkA] ++ [wChunkC])
    ∧ 1 ≤ (get_channel_subscribers wHttpMidFail wIds120).warns := by
  have h1 : (get_channel_subscribers wHttpMidFail wIds120).calls =
      [wChunkA] ++ wChunkB :: [wChunkC] := by decide
  have h2 : batchFails (wHttpMidFail wChunkB) = true := by decide
  have h := batcher_best_effort_amended wHttpMidFail wIds120 [wChunkA]
    [wChunkC] wChunkB h1 h2
  exact ⟨h1, h2, h.1, h.2⟩

/-- C3: the batcher requests exactly the consecutive ≤50-sized chunks of
the deduplicated, falsy-dropped ID list, one HTTP GET per chunk, the
chunks concatenate back to that list, the chunk count is `⌈n/50⌉`, the
returned map never has colliding keys, and for 120 distinct truthy IDs
exactly 3 batch calls are issued covering precisely those IDs. -/
theorem batcher_chunking_spec (http : List String → BatchOutcome)
    (channel_ids : List String) :
    (get_channel_subscribers http channel_ids).calls =
      chunks50 (uniqueIds channel_ids)
    ∧ (get_channel_subscribers http channel_ids).calls.flatten =
      uniqueIds channel_ids
    ∧ (∀ b ∈ (get_channel_subscribers http channel_ids).calls, b.length ≤ 50)
    ∧ (get_channel_subscribers http channel_ids).calls.length =
      ((uniqueIds channel_ids).length + 49) / 50
    ∧ ((get_channel_subscribers http channel_ids).result.map Prod.fst).Nodup
    ∧ (channel_ids.Nodup → "" ∉ channel_ids → channel_ids.length = 120 →
        (get_channel_subscribers http channel_ids).calls.length = 3
        ∧ (get_channel_subscribers http channel_ids).calls.flatten =
          channel_ids) := by
  by_cases hids : channel_ids = []
  · subst hids
    refine ⟨rfl, rfl, ?_, rfl, by simp [get_channel_subscribers], ?_⟩
    · intro b hb
      simp [get_channel_subscribers] at hb
    · intro _ _ hlen
      simp at hlen
  · have hcalls : (get_channel_subscribers http channel_ids).calls =
        chunks50 (uniqueIds channel_ids) := by
      rw [get_channel_subscribers, if_neg hids, runBatches_spec]
    have hres : (get_channel_subscribers http channel_ids).result =
        foldBatches http (chunks50 (uniqueIds channel_ids)) := by
      rw [get_channel_subscribers, if_neg hids, runBatches_spec]
    refine ⟨hcalls, ?_, ?_, ?_, ?_, ?_⟩
    · rw [hcalls, chunks50_join]
    · intro b hb
      rw [hcalls] at hb
      exact chunks50_mem_le _ b hb
    · rw [hcalls, chunks50_length]
    · rw [hres]
      exact foldBatches_keys_nodup http _
    · intro hnd hne hlen
      have hu : uniqueIds channel_ids = channel_ids :=
        uniqueIds_eq_self channel_ids hnd hne
      constructor
      · rw [hcalls, chunks50_length, hu, hlen]
      · rw [hcalls, chunks50_join, hu]

/-- C3 witness: 120 distinct truthy IDs produce exactly 3 batch calls
covering precisely those IDs. -/
theorem batcher_chunking_spec_witness :
    wIds120.Nodup ∧ "" ∉ wIds120 ∧ wIds120.length = 120
    ∧ (get_channel_subscribers (fun _ => BatchOutcome.exn "x") wIds120).calls.length = 3
    ∧ (get_channel_subscribers (fun _ => BatchOutcome.exn "x") wIds120).calls.flatten =
      wIds120 := by
  have h1 : wIds120.Nodup := by decide
  have h2 : "" ∉ wIds120 := by decide
  have h3 : wIds120.length = 120 := by decide
  have h := (batcher_chunking_spec (fun _ => BatchOutcome.exn "x")
    wIds120).2.2.2.2.2 h1 h2 h3
  exact ⟨h1, h2, h3, h.1, h.2⟩

/-- Helper: zero formats to the plain string `"0"`. -/
theorem format_views_zero : format_views 0 = some "0" := by decide

/-- C7: the formatter follows the Korean-locale thresholds — at or above
10⁸ the value divided by 10⁸ rendered to one decimal place with the 억
suffix, from 10⁴ up to 10⁸ the value divided by 10⁴ to one decimal place
with the 만 suffix, and below 10⁴ the thousands-grouped plain integer —
with `format 12345 = "1.2만"`, `format 250000000 = "2.5억"`,
`format 999 = "999"`.  The one-decimal rendering is the faithful
binary64 pipeline `fmt1`; the shape conjuncts exhibit the
"integer part, point, one digit" form (the 억 branch restricted below the
float-overflow range, where Python itself raises `OverflowError`). -/
theorem format_views_spec :
    (∀ v : Int, 100000000 ≤ v →
      format_views v = (fmt1 v.toNat 100000000).map (fun s => s ++ "억"))
    ∧ (∀ v : Int, 10000 ≤ v → v < 100000000 →
      format_views v = (fmt1 v.toNat 10000).map (fun s => s ++ "만"))
    ∧ (∀ v : Int, v < 10000 → format_views v = some (groupInt v))
    ∧ (∀ v : Int, 10000 ≤ v → v < 100000000 →
      ∃ k, format_views v =
        some (natToStr (k / 10) ++ "." ++ natToStr (k % 10) ++ "만"))
    ∧ (∀ v : Int, 100000000 ≤ v → v.toNat ≤ 10 ^ 300 →
      ∃ k, format_views v =
        some (natToStr (k / 10) ++ "." ++ natToStr (k % 10) ++ "억"))
    ∧ format_views 12345 = some "1.2만"
    ∧ format_views 250000000 = some "2.5억"
    ∧ format_views 999 = some "999" := by
  refine ⟨?_, ?_, ?_, ?_, ?_, by decide, by decide, by decide⟩
  · intro v h
    rw [format_views, if_pos h]
  · intro v h1 h2
    rw [format_views, if_neg (not_le.mpr h2), if_pos h1]
  · intro v h
    rw [format_views, if_neg (not_le.mpr (by omega)), if_neg (not_le.mpr h)]
  · intro v h1 h2
    have hb : v.toNat < 2 ^ 1023 := by
      have h3 : v.toNat < 100000000 := by omega
      exact Nat.lt_of_lt_of_le h3 (by norm_num)
    obtain ⟨k, hk⟩ := fmt1_shape v.toNat 10000 hb
    refine ⟨k, ?_⟩
    rw [format_views, if_neg (not_le.mpr h2), if_pos h1, hk]
    rfl
  · intro v h1 h2
    have hb : v.toNat < 2 ^ 1023 := by
      have h3 : (10 : Nat) ^ 300 < 2 ^ 1023 := by norm_num
      omega
    obtain ⟨k, hk⟩ := fmt1_shape v.toNat 100000000 hb
    refine ⟨k, ?_⟩
    rw [format_views, if_pos h1, hk]
    rfl

/-- C7 witness: a value in the 억 branch within the float range has the
one-decimal shape. -/
theorem format_views_spec_witness :
    (100000000 : Int) ≤ 250000000 ∧ (250000000 : Int).toNat ≤ 10 ^ 300
    ∧ ∃ k, format_views 250000000 =
        some (natToStr (k / 10) ++ "." ++ natToStr (k % 10) ++ "억") :=
  ⟨by decide, by norm_num,
    format_views_spec.2.2.2.2.1 250000000 (by decide) (by norm_num)⟩

/-- C10: in the metrics line a missing `viewCount` is rendered exactly like
the count 0 — the view part is always present, showing `"0"` — whereas a
missing like count, comment count or subscriber count produces no part at
all; when present, each of the three optional metrics contributes its own
formatted part. -/
theorem metrics_line_spec :
    (∀ (ch : String) (stats : RowStats) (subs : Option Int),
      stats.viewCount = none →
        metricsParts ch stats subs =
          metricsParts ch { stats with viewCount := some 0 } subs)
    ∧ format_views 0 = some "0"
    ∧ (∀ (ch : String) (stats : RowStats) (subs : Option Int),
        stats.viewCount = none → stats.likeCount = none →
        stats.commentCount = none → subs = none →
        metricsParts ch stats subs = some [ch, "👁 0"])
    ∧ (∀ (ch : String) (l c s : Int) (ls cs ss : String),
        format_views l = some ls → format_views c = some cs →
        format_views s = some ss →
        metricsParts ch
            { viewCount := none, likeCount := some l, commentCount := some c }
            (some s) =
          some [ch, "👁 0", "👍 " ++ ls, "💬 " ++ cs, "👤 " ++ ss ++ "명"]) := by
  have happ : ("👁 " ++ "0" : String) = "👁 0" := rfl
  refine ⟨?_, format_views_zero, ?_, ?_⟩
  · intro ch stats subs h
    simp [metricsParts, h]
  · intro ch stats subs hv hl hc hs
    simp [metricsParts, optFmt, hv, hl, hc, hs, format_views_zero, happ]
  · intro ch l c s ls cs ss hl hc hs
    simp [metricsParts, optFmt, hl, hc, hs, format_views_zero, happ]

/-- C10 witness: with everything absent the line is channel plus the zero
view count; with all three optional metrics present each contributes its
formatted part. -/
theorem metrics_line_spec_witness :
    metricsParts "Ch"
        { viewCount := none, likeCount := none, commentCount := none } none =
      some ["Ch", "👁 0"]
    ∧ metricsParts "Ch"
        { viewCount := none, likeCount := some 12345, commentCount := some 999 }
        (some 250000000) =
      some ["Ch", "👁 0", "👍 " ++ "1.2만", "💬 " ++ "999",
        "👤 " ++ "2.5억" ++ "명"] :=
  ⟨metrics_line_spec.2.2.1 "Ch"
      { viewCount := none, likeCount := none, commentCount := none } none
      rfl rfl rfl rfl,
    metrics_line_spec.2.2.2 "Ch" 12345 999 250000000 "1.2만" "999" "2.5억"
      (by decide) (by decide) (by decide)⟩

end StreamlitApp
